import Mathlib

/-!
Shallow embedding of the makalu-go pattern-matching engine (src/main.go,
second snapshot).  Dynamic Go `interface{}` values that can appear as the
actual response value or as the expected pattern value are modelled by the
inductive `GoValue`; the global mutable `errors` slice and the messages the
engine prints with `fmt.Printf` are modelled by returning, from every
function, the ordered list of `Error` records it appends and the ordered
list of lines it prints.  Go map iteration is modelled by association-list
order (Go's iteration order is unspecified; every claim below is either
per-key or order-insensitive).  The external regular-expression engine
(`regexp.MatchString`) is modelled by an explicit parameter of type
`RegexMatcher`, and the external `jsonpath.Read` library by a lookup
function parameter.
-/

namespace Makalu

/-- Dynamic values.  Actual values come from `json.Decoder` with
`UseNumber`, so numbers are `json.Number` (a string); expected values come
from YAML, where integers decode to Go `int`.  A `nil` interface value is
not modelled: `reflect.TypeOf(nil).String()` panics in Go before any code
path relevant to the claims runs. -/
inductive GoValue where
  | str (s : String)
  | jsonNumber (numRepr : String)
  | intVal (n : Int)
  | boolVal (b : Bool)
  | arr (elems : List GoValue)
  | obj (fields : List (String × GoValue))

/-- The string produced by `reflect.TypeOf(v).String()` for each modelled
dynamic type. -/
def typeName : GoValue → String
  | .str _ => "string"
  | .jsonNumber _ => "json.Number"
  | .intVal _ => "int"
  | .boolVal _ => "bool"
  | .arr _ => "[]interface \x7b\x7d"
  | .obj _ => "map[string]interface \x7b\x7d"

/-- One record of the global `errors` slice (`type Error struct`).  The
`entry` field is always zero-valued at every append site inside the
comparison engine, so it is omitted. -/
structure Error where
  message : String
  actualKey : String
  expectedKey : String
  category : String
deriving DecidableEq, Repr

/-- Result of an engine function: the returned boolean, the `Error`
records appended to the global `errors` slice (in order), and the lines
printed with `fmt.Printf` (in order). -/
structure OpResult where
  ok : Bool
  errs : List Error
  out : List String
deriving DecidableEq, Repr

/-- Effects of a `void` function (`compareObjects`): appended errors and
printed lines. -/
structure Effects where
  errs : List Error
  out : List String
deriving DecidableEq, Repr

/-- Model of `regexp.MatchString(pattern, s)`: `.error` means the pattern
failed to compile, `.ok b` means the compiled pattern ran and reports
whether it matched. -/
abbrev RegexMatcher := String → String → Except Unit Bool

/-- Association lists standing in for Go maps (keys unique in any real Go
map). -/
abbrev GoObj := List (String × GoValue)

/-- Go map read `m[k]` returning the value and whether the key exists. -/
def goLookup : GoObj → String → Option GoValue
  | [], _ => none
  | (k, v) :: rest, key => if k == key then some v else goLookup rest key

/-- `strings.HasPrefix(s, pre)`, modelled over character lists (Go compares
bytes; on these inputs the two coincide). -/
def goStarts (s pre : String) : Bool :=
  pre.toList.isPrefixOf s.toList

/-- `strings.HasSuffix(s, suf)`, modelled over character lists. -/
def goEnds (s suf : String) : Bool :=
  suf.toList.isSuffixOf s.toList

/-- `strings.TrimPrefix(s, "$")`. -/
def trimDollar (s : String) : String :=
  if goStarts s "$" then String.mk (s.toList.drop 1) else s

/-- `strings.TrimSuffix(s, "?")`. -/
def trimQuestion (s : String) : String :=
  if goEnds s "?" then String.mk s.toList.dropLast else s

/-- Value of a decimal digit character. -/
def digitVal (c : Char) : Option Nat :=
  if c.isDigit then some (c.toNat - 48) else none

/-- Accumulate decimal digits; fails on any non-digit. -/
def digitsVal : List Char → Nat → Option Nat
  | [], acc => some acc
  | c :: rest, acc =>
    match digitVal c with
    | some d => digitsVal rest (acc * 10 + d)
    | none => none

/-- Model of `json.Number.Int64()`, i.e. `strconv.ParseInt(s, 10, 64)`:
optional sign, decimal digits, 64-bit signed range check; `none` models a
non-nil error. -/
def parseInt64 (s : String) : Option Int :=
  match s.toList with
  | [] => none
  | cs =>
    let signed : Bool × List Char :=
      match cs with
      | '-' :: rest => (true, rest)
      | '+' :: rest => (false, rest)
      | _ => (false, cs)
    match signed.2 with
    | [] => none
    | ds =>
      match digitsVal ds 0 with
      | none => none
      | some n =>
        let v : Int := if signed.1 then -(n : Int) else (n : Int)
        if -(2 ^ 63) ≤ v ∧ v < 2 ^ 63 then some v else none

/-- `executeIsOperator` (src/main.go lines 259-295): compares the actual
value's reflected type name against the operand with its `$` sigil
stripped; `inverse` selects which outcome appends the diagnostic. -/
def executeIsOperator (operand1 : GoValue) (operand2 : String)
    (actualKey expectedKey : String) (inverse : Bool) : OpResult :=
  let expectedTypeName := trimDollar operand2
  let actualTypeName := typeName operand1
  if inverse then
    if actualTypeName != expectedTypeName then
      ⟨true, [], []⟩
    else
      ⟨false, [⟨"Value type matched", actualKey, expectedKey, "response_error"⟩], []⟩
  else
    if actualTypeName == expectedTypeName then
      ⟨true, [], []⟩
    else
      ⟨false, [⟨"Value type mismatched", actualKey, expectedKey, "response_error"⟩], []⟩

/-- `executeRegexOperator` (src/main.go lines 314-355).  The first branch
mirrors the `reflect.TypeOf(actualValue0).String() != "string"` guard: for
a non-string actual value the matcher is never consulted. -/
def executeRegexOperator (rmatch : RegexMatcher) (actualValue0 : GoValue)
    (expectedValue actualKey expectedKey : String) : OpResult :=
  match actualValue0 with
  | .str actualValue =>
    match rmatch expectedValue actualValue with
    | .error _ =>
      ⟨false, [⟨"Invalid regex pattern", actualKey, expectedKey, "spec_error"⟩], []⟩
    | .ok true => ⟨true, [], []⟩
    | .ok false =>
      ⟨false, [⟨"Regex mismatch", actualKey, expectedKey, "response_error"⟩], []⟩
  | _ =>
    ⟨false, [⟨"Unexpected value type", actualKey, expectedKey, "response_error"⟩], []⟩

/-- The `equalityOperators["string"]["string"]` comparator
(src/main.go lines 92-144). -/
def stringStringComparator (actual expected actualKey expectedKey : String)
    (inverse : Bool) : OpResult :=
  if goStarts expected "$" then
    if inverse && expected == "$string" then
      ⟨false,
        [⟨"Unexpected value type", actualKey, expectedKey ++ ":" ++ expected,
          "response_error"⟩], []⟩
    else if !inverse && expected != "$string" then
      ⟨false,
        [⟨"Unexpected value type", actualKey, expectedKey ++ ":" ++ expected,
          "response_error"⟩], []⟩
    else
      ⟨true, [], []⟩
  else if inverse && actual == expected then
    ⟨false, [⟨"Values are equal", actualKey, expectedKey, "response_error"⟩], []⟩
  else if !inverse && actual != expected then
    ⟨false, [⟨"Values are not equal", actualKey, expectedKey, "response_error"⟩], []⟩
  else
    ⟨true, [], []⟩

/-- The `equalityOperators["json.Number"]["string"]` comparator
(src/main.go lines 175-205).  The source never reads the actual number and
never reads `inverse`; for a non-sigil expected string it unconditionally
reports "Values are not equal". -/
def numberStringComparator (actualRepr expected actualKey expectedKey : String)
    (inverse : Bool) : OpResult :=
  if goStarts expected "$" then
    if expected != "$number" then
      ⟨false,
        [⟨"Unexpected value type", actualKey, expectedKey ++ ":" ++ expected,
          "response_error"⟩], []⟩
    else
      ⟨true, [], []⟩
  else
    ⟨false, [⟨"Values are not equal", actualKey, expectedKey, "response_error"⟩], []⟩

/-- The `equalityOperators["json.Number"]["int"]` comparator
(src/main.go lines 206-226). -/
def numberIntComparator (actualRepr : String) (expected : Int)
    (actualKey expectedKey : String) : OpResult :=
  match parseInt64 actualRepr with
  | some actual =>
    if actual == expected then ⟨true, [], []⟩
    else
      ⟨false, [⟨"Values are not equal", actualKey, expectedKey, "response_error"⟩], []⟩
  | none =>
    ⟨false, [⟨"Values are not equal", actualKey, expectedKey, "response_error"⟩], []⟩

/-- The line printed by `fmt.Printf("Makalu does not currently support %s vs %s comparisons!\n", ...)`
when the comparator table has no entry for a kind pair. -/
def unsupportedMsg (a e : GoValue) : String :=
  "Makalu does not currently support " ++ typeName a ++ " vs " ++
    typeName e ++ " comparisons!\n"

mutual

/-- `operate` (src/main.go lines 357-406).  The Go `switch` has
`case "$is":` with an empty body and no `fallthrough`, so `"$is"` matches
that empty case, the switch exits, and the function falls to its final
`return false` without appending anything; only `"$is_not"` runs the
type-name block.  For `"$is_not"` the call to `executeIsOperator` passes
`parentActualKey + "." + operator` as the expected key (source line 382
uses `parentActualKey`, not `parentExpectedKey`). -/
def operate (rmatch : RegexMatcher) (operand1 : GoValue) (operator : String)
    (operand2 : GoValue) (parentActualKey parentExpectedKey : String) : OpResult :=
  if operator == "$is" then
    ⟨false, [], []⟩
  else if operator == "$is_not" then
    match operand2 with
    | .str op2 =>
      if !(goStarts op2 "$") then
        ⟨false,
          [⟨operator ++ " operator expects type name", parentActualKey,
            parentExpectedKey, "spec_error"⟩], []⟩
      else
        executeIsOperator operand1 op2 parentActualKey
          (parentActualKey ++ "." ++ operator) (operator == "$is_not")
    | _ =>
      ⟨false,
        [⟨operator ++ " operator expects type name", parentActualKey,
          parentExpectedKey, "spec_error"⟩], []⟩
  else if operator == "$ne" then
    executeNeOperator rmatch operand1 operand2 parentActualKey parentExpectedKey
  else if operator == "$regex" then
    match operand2 with
    | .str pat => executeRegexOperator rmatch operand1 pat parentActualKey parentExpectedKey
    | _ =>
      ⟨false,
        [⟨"$regex operator expects regex pattern", parentActualKey,
          parentExpectedKey, "spec_error"⟩], []⟩
  else
    ⟨false, [], []⟩
termination_by (sizeOf operand2, 3)

/-- `executeNeOperator` (src/main.go lines 297-312): looks up the
comparator table for the two reflected type names and applies the entry
with `inverse = true`; when no entry is registered it prints the
unsupported-pair message and returns `false` without appending any
diagnostic. -/
def executeNeOperator (rmatch : RegexMatcher) (actualValue expectedValue : GoValue)
    (actualKey expectedKey : String) : OpResult :=
  match applyComparator rmatch actualValue expectedValue actualKey expectedKey true with
  | some r => r
  | none => ⟨false, [], [unsupportedMsg actualValue expectedValue]⟩
termination_by (sizeOf expectedValue, 2)

/-- The two-level table lookup
`equalityOperators[reflect.TypeOf(actual).String()][reflect.TypeOf(expected).String()]`
followed by the comparator call; `none` models a missing table entry.
The table registers exactly the pairs (string, string), (string, map),
(json.Number, string), (json.Number, int), (json.Number, map). -/
def applyComparator (rmatch : RegexMatcher) (actual expected : GoValue)
    (actualKey expectedKey : String) (inverse : Bool) : Option OpResult :=
  match actual, expected with
  | .str a, .str e => some (stringStringComparator a e actualKey expectedKey inverse)
  | .str a, .obj fields => some (stringMapIter rmatch a fields actualKey expectedKey true)
  | .jsonNumber a, .str e =>
    some (numberStringComparator a e actualKey expectedKey inverse)
  | .jsonNumber a, .intVal e => some (numberIntComparator a e actualKey expectedKey)
  | .jsonNumber a, .obj fields =>
    some (numberMapIter rmatch a fields actualKey expectedKey true)
  | _, _ => none
termination_by (sizeOf expected, 1)

/-- Loop body of the `equalityOperators["string"]["map[string]interface \x7b\x7d"]`
comparator (src/main.go lines 145-173): iterates the expected mapping's
entries accumulating `result = result && operate(...)`; Go's `&&`
short-circuits, so once `result` is false `operate` is no longer called.
A non-sigil key appends the mixing error (with the parent keys) and forces
`result` to false. -/
def stringMapIter (rmatch : RegexMatcher) (actualValue : String)
    (entries : List (String × GoValue))
    (parentActualKey parentExpectedKey : String) (result : Bool) : OpResult :=
  match entries with
  | [] => ⟨result, [], []⟩
  | (expectedKey, operand2) :: rest =>
    if goStarts expectedKey "$" then
      if result then
        let o := operate rmatch (.str actualValue) expectedKey operand2
          parentActualKey (parentExpectedKey ++ "." ++ expectedKey)
        let r := stringMapIter rmatch actualValue rest parentActualKey
          parentExpectedKey o.ok
        ⟨r.ok, o.errs ++ r.errs, o.out ++ r.out⟩
      else
        stringMapIter rmatch actualValue rest parentActualKey parentExpectedKey false
    else
      let r := stringMapIter rmatch actualValue rest parentActualKey parentExpectedKey false
      ⟨r.ok,
        ⟨"Cannot mix operators and fields", parentActualKey, parentExpectedKey,
          "spec_error"⟩ :: r.errs, r.out⟩
termination_by (sizeOf entries, 0)

/-- Loop body of the `equalityOperators["json.Number"]["map[string]interface \x7b\x7d"]`
comparator (src/main.go lines 227-255).  Unlike the string version it
passes the empty string for both parent keys to `operate`, and its loop
variable shadows the `expectedKey` parameter, so the mixing error records
the loop key as the expected key. -/
def numberMapIter (rmatch : RegexMatcher) (actualRepr : String)
    (entries : List (String × GoValue))
    (actualKey expectedKeyParam : String) (result : Bool) : OpResult :=
  match entries with
  | [] => ⟨result, [], []⟩
  | (expectedKey, operand2) :: rest =>
    if goStarts expectedKey "$" then
      if result then
        let o := operate rmatch (.jsonNumber actualRepr) expectedKey operand2 "" ""
        let r := numberMapIter rmatch actualRepr rest actualKey expectedKeyParam o.ok
        ⟨r.ok, o.errs ++ r.errs, o.out ++ r.out⟩
      else
        numberMapIter rmatch actualRepr rest actualKey expectedKeyParam false
    else
      let r := numberMapIter rmatch actualRepr rest actualKey expectedKeyParam false
      ⟨r.ok,
        ⟨"Cannot mix operators and fields", actualKey, expectedKey,
          "spec_error"⟩ :: r.errs, r.out⟩
termination_by (sizeOf entries, 0)

end

/-- The error appended by the unknown-key pass of `compareObjects` for one
actual key absent (in both plain and optional form) from the expected
mapping (src/main.go lines 419-426). -/
def unknownKeyError (parentActualKey parentExpectedKey key : String) : Error :=
  ⟨"Unknown key " ++ key, parentActualKey ++ "." ++ key,
    parentExpectedKey ++ ".$unknown", "match_error"⟩

/-- One iteration of the first loop of `compareObjects`
(src/main.go lines 414-427): an actual key produces the unknown-key error
exactly when neither it nor its `?`-suffixed form is a key of the expected
mapping. -/
def unknownKeyEntry (expected : GoObj) (parentActualKey parentExpectedKey key : String) :
    List Error :=
  if (goLookup expected key).isNone && (goLookup expected (key ++ "?")).isNone then
    [unknownKeyError parentActualKey parentExpectedKey key]
  else
    []

/-- The whole first loop of `compareObjects`. -/
def unknownKeyPass (actual expected : GoObj) (parentActualKey parentExpectedKey : String) :
    List Error :=
  match actual with
  | [] => []
  | (key, _) :: rest =>
    unknownKeyEntry expected parentActualKey parentExpectedKey key ++
      unknownKeyPass rest expected parentActualKey parentExpectedKey

/-- One iteration of the second loop of `compareObjects`
(src/main.go lines 429-476): strip the optional suffix, look the key up in
the actual mapping, report a missing required key or skip an optional one,
and otherwise dispatch to `operate` (sigil key) or the comparator table.
The boolean results of `operate` and of the comparator are discarded by
the source, so only effects are returned. -/
def processExpectedEntry (rmatch : RegexMatcher) (actual : GoObj)
    (expectedKey : String) (expectedValue : GoValue)
    (parentActualKey parentExpectedKey : String) : Effects :=
  match goLookup actual (trimQuestion expectedKey) with
  | none =>
    if !(goEnds expectedKey "?") then
      ⟨[⟨"Cannot find required key '" ++ trimQuestion expectedKey ++ "'",
          parentActualKey ++ ".<" ++ trimQuestion expectedKey ++ ">",
          parentExpectedKey ++ "." ++ expectedKey, "match_error"⟩], []⟩
    else
      ⟨[], []⟩
  | some actualValue =>
    if goStarts expectedKey "$" then
      let o := operate rmatch actualValue expectedKey expectedValue
        (parentActualKey ++ "." ++ trimQuestion expectedKey)
        (parentExpectedKey ++ "." ++ expectedKey)
      ⟨o.errs, o.out⟩
    else
      match applyComparator rmatch actualValue expectedValue
        (parentActualKey ++ "." ++ trimQuestion expectedKey)
        (parentExpectedKey ++ "." ++ expectedKey) false with
      | some r => ⟨r.errs, r.out⟩
      | none => ⟨[], [unsupportedMsg actualValue expectedValue]⟩

/-- The whole second loop of `compareObjects`. -/
def expectedKeyPass (rmatch : RegexMatcher) (actual : GoObj) (entries : GoObj)
    (parentActualKey parentExpectedKey : String) : Effects :=
  match entries with
  | [] => ⟨[], []⟩
  | (k, v) :: rest =>
    let e := processExpectedEntry rmatch actual k v parentActualKey parentExpectedKey
    let r := expectedKeyPass rmatch actual rest parentActualKey parentExpectedKey
    ⟨e.errs ++ r.errs, e.out ++ r.out⟩

/-- `compareObjects` (src/main.go lines 408-477): the unknown-key pass over
the actual mapping followed by the expected-key pass over the expected
mapping. -/
def compareObjects (rmatch : RegexMatcher) (actual expected : GoObj)
    (parentActualKey parentExpectedKey : String) : Effects :=
  let u := unknownKeyPass actual expected parentActualKey parentExpectedKey
  let e := expectedKeyPass rmatch actual expected parentActualKey parentExpectedKey
  ⟨u ++ e.errs, e.out⟩

/-!
The path resolver `refer` (src/main.go lines 513-543).  The external
`jsonpath.Read(context, "$." + snippet)` call is modelled by a lookup
function; `log.Fatal(err)` (which terminates the whole process, every
remaining specification entry included) is modelled by `.fatalError`, and
the `value.(string)` type assertion panic on a non-string result by
`.typeAssertPanic`.  The Go loop is `for index := 0; index < len(value);`
with `index` only ever advanced inside the branch that found a terminated
placeholder, so the loop body is given an explicit fuel parameter; `none`
means the fuel ran out, and a state that repeats itself forever makes the
result `none` for every fuel.  Strings are scanned by character index
(identical to Go's byte index on the ASCII inputs considered here).
-/

/-- A whitespace character as `strings.TrimSpace` sees it (the Unicode
cases beyond ASCII do not occur in the inputs considered). -/
def isSpaceChar (c : Char) : Bool :=
  c == ' ' || c == '\t' || c == '\n' || c == '\r'

/-- `strings.TrimSpace`, modelled over character lists. -/
def goTrim (cs : List Char) : List Char :=
  ((cs.dropWhile isSpaceChar).reverse.dropWhile isSpaceChar).reverse

/-- `strings.Index(hay, needle)` restricted to a character-list scan
starting at position `pos`; returns `-1` when absent. -/
def goIndexFrom (needle : List Char) : List Char → Nat → Int
  | hay, pos =>
    if needle.isPrefixOf hay then (pos : Int)
    else
      match hay with
      | [] => -1
      | _ :: rest => goIndexFrom needle rest (pos + 1)

/-- Outcome of one `refer` call. -/
inductive ReferResult where
  | ok (s : String)
  | fatalError
  | typeAssertPanic
deriving DecidableEq, Repr

/-- The loop of `refer`, fuel-indexed.  `strings.Index` is always applied
to the whole string (the source searches from position 0, not from
`index`), exactly as in the source. -/
def referLoop (lookup : String → Option GoValue) (value : List Char) :
    Nat → Nat → String → Option ReferResult
  | 0, _, _ => none
  | fuel + 1, index, buffer =>
    if index < value.length then
      let startIndex := goIndexFrom ('\x7b' :: '\x7b' :: []) value 0
      if startIndex ≥ (index : Int) then
        let startN := startIndex.toNat
        let buffer1 := buffer ++ String.mk ((value.take startN).drop index)
        let stopIndex := goIndexFrom ('\x7d' :: '\x7d' :: []) value 0
        if stopIndex ≥ startIndex + 2 then
          let stopN := stopIndex.toNat
          let snippet := String.mk (goTrim ((value.take stopN).drop (startN + 2)))
          match lookup snippet with
          | none => some .fatalError
          | some (.str s) => referLoop lookup value fuel (stopN + 2) (buffer1 ++ s)
          | some _ => some .typeAssertPanic
        else
          referLoop lookup value fuel index buffer1
      else
        some (.ok (buffer ++ String.mk (value.drop index)))
    else
      some (.ok buffer)

/-- `refer` itself, fuel-indexed. -/
def refer (lookup : String → Option GoValue) (value : String) (fuel : Nat) :
    Option ReferResult :=
  referLoop lookup value.toList fuel 0 ""

/-- A concrete matcher used to instantiate the `rmatch` parameter in closed
statements that never reach the regex operator. -/
def noRegex : RegexMatcher := fun _ _ => Except.ok false

/-- Every key of the actual mapping is covered by the expected mapping,
either verbatim or in `?`-suffixed form. -/
def allKeysKnown (actual expected : GoObj) : Bool :=
  actual.all fun p =>
    (goLookup expected p.1).isSome || (goLookup expected (p.1 ++ "?")).isSome

/-- One expected entry is present in the actual mapping and its comparison
succeeds: the engine's own notion of a matching value (the dispatched
`operate` call or registered comparator returns `true`). -/
def entryMatches (rmatch : RegexMatcher) (actual : GoObj) (pak pek : String)
    (p : String × GoValue) : Bool :=
  match goLookup actual (trimQuestion p.1) with
  | none => false
  | some av =>
    if goStarts p.1 "$" then
      (operate rmatch av p.1 p.2 (pak ++ "." ++ trimQuestion p.1) (pek ++ "." ++ p.1)).ok
    else
      match applyComparator rmatch av p.2 (pak ++ "." ++ trimQuestion p.1)
        (pek ++ "." ++ p.1) false with
      | some r => r.ok
      | none => false

/-- A matcher for the C7 witness: pattern `"("` fails to compile, any other
pattern matches exactly the strings equal to it. -/
def testMatcher : RegexMatcher := fun pat s =>
  if pat == "(" then .error () else .ok (pat == s)

/-- A function result whose success entails that it appended no
diagnostics. -/
def OkNil (r : OpResult) : Prop := r.ok = true → r.errs = []

theorem okNil_executeIs (operand1 : GoValue) (operand2 actualKey expectedKey : String)
    (inverse : Bool) :
    OkNil (executeIsOperator operand1 operand2 actualKey expectedKey inverse) := by
  unfold executeIsOperator OkNil
  split <;> dsimp only <;> split <;> simp

theorem okNil_executeRegex (rmatch : RegexMatcher) (actualValue0 : GoValue)
    (expectedValue actualKey expectedKey : String) :
    OkNil (executeRegexOperator rmatch actualValue0 expectedValue actualKey expectedKey) := by
  unfold executeRegexOperator OkNil
  split
  · split <;> simp
  · simp

theorem okNil_stringString (actual expected actualKey expectedKey : String)
    (inverse : Bool) :
    OkNil (stringStringComparator actual expected actualKey expectedKey inverse) := by
  unfold stringStringComparator OkNil
  split
  · split
    · simp
    · split <;> simp
  · split
    · simp
    · split <;> simp

theorem okNil_numberString (actualRepr expected actualKey expectedKey : String)
    (inverse : Bool) :
    OkNil (numberStringComparator actualRepr expected actualKey expectedKey inverse) := by
  unfold numberStringComparator OkNil
  split
  · split <;> simp
  · simp

theorem okNil_numberInt (actualRepr : String) (expected : Int)
    (actualKey expectedKey : String) :
    OkNil (numberIntComparator actualRepr expected actualKey expectedKey) := by
  unfold numberIntComparator OkNil
  split
  · split <;> simp
  · simp

/-- Once the accumulated `result` of the string-map loop is `false`, it
stays `false`: Go's `result = result && ...` never recovers. -/
theorem strIter_false (rmatch : RegexMatcher) (a pak pek : String) :
    ∀ entries, (stringMapIter rmatch a entries pak pek false).ok = false := by
  intro entries
  induction entries with
  | nil => simp [stringMapIter]
  | cons head rest ih =>
    obtain ⟨k, v⟩ := head
    simp only [stringMapIter]
    split <;> simp [ih]

/-- Same for the number-map loop. -/
theorem numIter_false (rmatch : RegexMatcher) (a ak ekp : String) :
    ∀ entries, (numberMapIter rmatch a entries ak ekp false).ok = false := by
  intro entries
  induction entries with
  | nil => simp [numberMapIter]
  | cons head rest ih =>
    obtain ⟨k, v⟩ := head
    simp only [numberMapIter]
    split <;> simp [ih]

mutual

/-- If `operate` returns `true` it appended no diagnostics. -/
theorem okNil_operate (rmatch : RegexMatcher) (operand1 : GoValue) (operator : String)
    (operand2 : GoValue) (pak pek : String) :
    OkNil (operate rmatch operand1 operator operand2 pak pek) := by
  rw [operate.eq_def]
  split
  · simp [OkNil]
  · split
    · split
      · split
        · simp [OkNil]
        · apply okNil_executeIs
      · simp [OkNil]
    · split
      · apply okNil_executeNe
      · split
        · split
          · apply okNil_executeRegex
          · simp [OkNil]
        · simp [OkNil]
termination_by (sizeOf operand2, 3)

/-- If `executeNeOperator` returns `true` it appended no diagnostics. -/
theorem okNil_executeNe (rmatch : RegexMatcher) (actualValue expectedValue : GoValue)
    (actualKey expectedKey : String) :
    OkNil (executeNeOperator rmatch actualValue expectedValue actualKey expectedKey) := by
  rw [executeNeOperator.eq_def]
  split
  · rename_i r hr
    exact okNil_applyComparator rmatch actualValue expectedValue actualKey expectedKey
      true r hr
  · simp [OkNil]
termination_by (sizeOf expectedValue, 2)

/-- If a registered comparator returns `true` it appended no
diagnostics. -/
theorem okNil_applyComparator (rmatch : RegexMatcher) (actual expected : GoValue)
    (actualKey expectedKey : String) (inverse : Bool) (r : OpResult)
    (h : applyComparator rmatch actual expected actualKey expectedKey inverse = some r) :
    OkNil r := by
  rw [applyComparator.eq_def] at h
  split at h
  · cases h; apply okNil_stringString
  · cases h; apply okNil_strIter
  · cases h; apply okNil_numberString
  · cases h; apply okNil_numberInt
  · cases h; apply okNil_numIter
  · cases h
termination_by (sizeOf expected, 1)

/-- If the string-map loop ends with `result = true` it appended no
diagnostics. -/
theorem okNil_strIter (rmatch : RegexMatcher) (actualValue : String)
    (entries : List (String × GoValue)) (pak pek : String) (result : Bool) :
    OkNil (stringMapIter rmatch actualValue entries pak pek result) := by
  match entries with
  | [] => simp [stringMapIter, OkNil]
  | (expectedKey, operand2) :: rest =>
    simp only [stringMapIter]
    split
    · split
      · intro h
        simp only [OpResult.ok] at h
        have hok : (operate rmatch (.str actualValue) expectedKey operand2
            pak (pek ++ "." ++ expectedKey)).ok = true := by
          by_contra hfalse
          rw [Bool.not_eq_true] at hfalse
          rw [hfalse] at h
          exact absurd h (by simp [strIter_false])
        have h1 := okNil_operate rmatch (.str actualValue) expectedKey operand2
          pak (pek ++ "." ++ expectedKey) hok
        have h2 := okNil_strIter rmatch actualValue rest pak pek
          ((operate rmatch (.str actualValue) expectedKey operand2
            pak (pek ++ "." ++ expectedKey)).ok) h
        simp [h1, h2]
      · exact okNil_strIter rmatch actualValue rest pak pek false
    · intro h
      simp only [OpResult.ok] at h
      exact absurd h (by simp [strIter_false])
termination_by (sizeOf entries, 0)

/-- If the number-map loop ends with `result = true` it appended no
diagnostics. -/
theorem okNil_numIter (rmatch : RegexMatcher) (actualRepr : String)
    (entries : List (String × GoValue)) (ak ekp : String) (result : Bool) :
    OkNil (numberMapIter rmatch actualRepr entries ak ekp result) := by
  match entries with
  | [] => simp [numberMapIter, OkNil]
  | (expectedKey, operand2) :: rest =>
    simp only [numberMapIter]
    split
    · split
      · intro h
        simp only [OpResult.ok] at h
        have hok : (operate rmatch (.jsonNumber actualRepr) expectedKey operand2
            "" "").ok = true := by
          by_contra hfalse
          rw [Bool.not_eq_true] at hfalse
          rw [hfalse] at h
          exact absurd h (by simp [numIter_false])
        have h1 := okNil_operate rmatch (.jsonNumber actualRepr) expectedKey operand2
          "" "" hok
        have h2 := okNil_numIter rmatch actualRepr rest ak ekp
          ((operate rmatch (.jsonNumber actualRepr) expectedKey operand2 "" "").ok) h
        simp [h1, h2]
      · exact okNil_numIter rmatch actualRepr rest ak ekp false
    · intro h
      simp only [OpResult.ok] at h
      exact absurd h (by simp [numIter_false])
termination_by (sizeOf entries, 0)

end

/-- When every actual key is covered, the unknown-key pass appends
nothing. -/
theorem unknownKeyPass_nil (actual expected : GoObj) (pak pek : String)
    (h : allKeysKnown actual expected = true) :
    unknownKeyPass actual expected pak pek = [] := by
  induction actual with
  | nil => rfl
  | cons p rest ih =>
    obtain ⟨k, v⟩ := p
    simp only [allKeysKnown, List.all_cons, Bool.and_eq_true] at h
    obtain ⟨h1, h2⟩ := h
    have hcond : ((goLookup expected k).isNone &&
        (goLookup expected (k ++ "?")).isNone) = false := by
      cases hA : goLookup expected k <;> cases hB : goLookup expected (k ++ "?") <;>
        simp_all
    simp only [unknownKeyPass, unknownKeyEntry, hcond, Bool.false_eq_true, if_false,
      List.nil_append]
    exact ih (by simpa [allKeysKnown] using h2)

/-- When one expected entry matches, processing it appends nothing. -/
theorem processExpectedEntry_nil (rmatch : RegexMatcher) (actual : GoObj)
    (k : String) (v : GoValue) (pak pek : String)
    (h : entryMatches rmatch actual pak pek (k, v) = true) :
    (processExpectedEntry rmatch actual k v pak pek).errs = [] := by
  unfold entryMatches at h
  unfold processExpectedEntry
  cases hl : goLookup actual (trimQuestion k) with
  | none => rw [hl] at h; simp at h
  | some av =>
    rw [hl] at h
    dsimp only at h
    by_cases hs : goStarts k "$" = true
    · rw [if_pos hs] at h
      simp only [if_pos hs]
      exact okNil_operate rmatch av k v (pak ++ "." ++ trimQuestion k)
        (pek ++ "." ++ k) h
    · rw [if_neg hs] at h
      simp only [if_neg hs]
      cases hc : applyComparator rmatch av v (pak ++ "." ++ trimQuestion k)
        (pek ++ "." ++ k) false with
      | none => rw [hc] at h
      | some r =>
        rw [hc] at h
        simp only []
        exact okNil_applyComparator rmatch av v (pak ++ "." ++ trimQuestion k)
          (pek ++ "." ++ k) false r hc h

/-- When every expected entry matches, the expected-key pass appends
nothing. -/
theorem expectedKeyPass_nil (rmatch : RegexMatcher) (actual : GoObj)
    (entries : GoObj) (pak pek : String)
    (h : entries.all (entryMatches rmatch actual pak pek) = true) :
    (expectedKeyPass rmatch actual entries pak pek).errs = [] := by
  induction entries with
  | nil => rfl
  | cons p rest ih =>
    obtain ⟨k, v⟩ := p
    simp only [List.all_cons, Bool.and_eq_true] at h
    obtain ⟨hm, hrest⟩ := h
    have hhead := processExpectedEntry_nil rmatch actual k v pak pek hm
    simp only [expectedKeyPass, hhead, List.nil_append]
    exact ih hrest

/-- Claim C1.  The claim states that `$is` with operand `"$string"` succeeds
exactly on String actual values and appends one diagnostic on its failing
branch.  In the source, `case "$is":` in `operate`'s switch has an empty
body and Go has no implicit fallthrough, so `$is` always returns `false`
and never appends anything: on a String actual it fails where the claim
requires success, and on a Number actual it fails with zero diagnostics
where the claim requires exactly one.  This theorem evaluates `operate` at
both inputs. -/
theorem makalu_c1_is_operator_silent :
    operate noRegex (.str "Everest") "$is" (.str "$string")
        "$root.name" "$root.out.name" = ⟨false, [], []⟩
    ∧ operate noRegex (.jsonNumber "5") "$is" (.str "$string")
        "$root.id" "$root.out.id" = ⟨false, [], []⟩ := by
  constructor <;> simp [operate]

/-- Claim C2.  If every actual key is covered by the expected mapping (so
the unknown-key pass is silent) and every expected entry is present in the
actual mapping with a value whose dispatched comparison succeeds, then
`compareObjects` appends zero diagnostics. -/
theorem makalu_c2_compare_sound (rmatch : RegexMatcher) (actual expected : GoObj)
    (pak pek : String)
    (h1 : allKeysKnown actual expected = true)
    (h2 : expected.all (entryMatches rmatch actual pak pek) = true) :
    (compareObjects rmatch actual expected pak pek).errs = [] := by
  unfold compareObjects
  dsimp only
  rw [unknownKeyPass_nil actual expected pak pek h1,
    expectedKeyPass_nil rmatch actual expected pak pek h2]
  rfl

/-- Concrete instance of claim C2: a two-key response matching a two-key
pattern produces no diagnostics. -/
theorem makalu_c2_compare_sound_witness :
    allKeysKnown [("name", .str "Everest"), ("id", .jsonNumber "1")]
        [("name", .str "Everest"), ("id", .str "$number")] = true
    ∧ ([("name", GoValue.str "Everest"), ("id", GoValue.str "$number")] : GoObj).all
        (entryMatches noRegex [("name", .str "Everest"), ("id", .jsonNumber "1")]
          "$root" "$root.out") = true
    ∧ (compareObjects noRegex [("name", .str "Everest"), ("id", .jsonNumber "1")]
        [("name", .str "Everest"), ("id", .str "$number")] "$root" "$root.out").errs
        = [] := by
  have h1 : allKeysKnown [("name", .str "Everest"), ("id", .jsonNumber "1")]
      [("name", .str "Everest"), ("id", .str "$number")] = true := by decide
  have h2 : ([("name", GoValue.str "Everest"), ("id", GoValue.str "$number")] : GoObj).all
      (entryMatches noRegex [("name", .str "Everest"), ("id", .jsonNumber "1")]
        "$root" "$root.out") = true := by
    simp +decide [entryMatches, goLookup, trimQuestion, applyComparator,
      stringStringComparator, numberStringComparator]
  exact ⟨h1, h2, makalu_c2_compare_sound noRegex _ _ _ _ h1 h2⟩

/-- Claim C3.  For an expected key whose stripped form is absent from the
actual mapping, the per-key processing appends exactly one `match_error`
diagnostic with actual path `prefix.<key>` and expected path
`prefix.key` when the key is required, and appends nothing when the key
carries the `?` suffix. -/
theorem makalu_c3_missing_required_key (rmatch : RegexMatcher) (actual : GoObj)
    (k : String) (v : GoValue) (pak pek : String)
    (habs : goLookup actual (trimQuestion k) = none) :
    processExpectedEntry rmatch actual k v pak pek =
      if goEnds k "?" then ⟨[], []⟩
      else
        ⟨[⟨"Cannot find required key '" ++ trimQuestion k ++ "'",
            pak ++ ".<" ++ trimQuestion k ++ ">",
            pek ++ "." ++ k, "match_error"⟩], []⟩ := by
  unfold processExpectedEntry
  rw [habs]
  by_cases ho : goEnds k "?" = true <;> simp [ho]

/-- Concrete instance of claim C3: missing required key `name` at the root
yields the single `match_error` with actual path `$root.<name>`; missing
optional key `tag?` yields nothing. -/
theorem makalu_c3_missing_required_key_witness :
    goLookup [] (trimQuestion "name") = none
    ∧ processExpectedEntry noRegex [] "name" (.str "$string") "$root" "$root.out"
      = ⟨[⟨"Cannot find required key 'name'", "$root.<name>", "$root.out.name",
          "match_error"⟩], []⟩
    ∧ processExpectedEntry noRegex [] "tag?" (.str "$string") "$root" "$root.out"
      = ⟨[], []⟩ := by
  refine ⟨rfl, ?_, ?_⟩
  · have h := makalu_c3_missing_required_key noRegex [] "name" (.str "$string")
      "$root" "$root.out" rfl
    rw [h]
    decide
  · have h := makalu_c3_missing_required_key noRegex [] "tag?" (.str "$string")
      "$root" "$root.out" rfl
    rw [h]
    decide

/-- Claim C4.  The diagnostics of `compareObjects` decompose as exactly one
unknown-key `match_error` per actual key covered by the expected mapping in
neither plain nor `?`-suffixed form — with actual path `prefix.key` and
expected path `prefix.$unknown` — followed by the expected-key pass's
diagnostics; actual keys present in either form contribute nothing to the
unknown-key pass. -/
theorem makalu_c4_unknown_key (rmatch : RegexMatcher) (actual expected : GoObj)
    (pak pek : String) :
    (compareObjects rmatch actual expected pak pek).errs =
      (actual.filter fun p =>
        (goLookup expected p.1).isNone && (goLookup expected (p.1 ++ "?")).isNone).map
          (fun p => unknownKeyError pak pek p.1)
      ++ (expectedKeyPass rmatch actual expected pak pek).errs := by
  unfold compareObjects
  dsimp only
  have hu : ∀ a : GoObj, unknownKeyPass a expected pak pek =
      (a.filter fun p =>
        (goLookup expected p.1).isNone && (goLookup expected (p.1 ++ "?")).isNone).map
          (fun p => unknownKeyError pak pek p.1) := by
    intro a
    induction a with
    | nil => rfl
    | cons p rest ih =>
      obtain ⟨k, v⟩ := p
      simp only [unknownKeyPass, unknownKeyEntry, List.filter_cons]
      by_cases hc : ((goLookup expected k).isNone &&
          (goLookup expected (k ++ "?")).isNone) = true <;>
        simp [hc, ih]
  rw [hu]




/-- Claim C5, counterexample.  The claim states that an unregistered kind
pair makes the structural comparator and `$ne` append a single
`spec_error`-class diagnostic to the diagnostics list.  At the unregistered
pair (bool, string) both append zero diagnostics: the source only prints
the unsupported-pair message to standard output. -/
theorem makalu_c5_counterexample :
    (compareObjects noRegex [("flag", .boolVal true)] [("flag", .str "yes")]
        "$root" "$root.out").errs = []
    ∧ (executeNeOperator noRegex (.boolVal true) (.str "x")
        "$root.flag" "$root.out.flag").errs = []
    ∧ (compareObjects noRegex [("flag", .boolVal true)] [("flag", .str "yes")]
        "$root" "$root.out").out
      = [unsupportedMsg (.boolVal true) (.str "yes")] := by
  refine ⟨?_, ?_, ?_⟩ <;>
    simp +decide [compareObjects, unknownKeyPass, unknownKeyEntry, goLookup,
      expectedKeyPass, processExpectedEntry, trimQuestion, applyComparator,
      executeNeOperator]

/-- Claim C5, amended.  For every kind pair with no comparator-table entry,
`executeNeOperator` returns `false` and the expected-key processing of the
structural comparator completes, and both print the unsupported-pair
message to standard output while appending no diagnostic at all to the
diagnostics list; the run continues (neither function crashes — both are
total). -/
theorem makalu_c5_unsupported_pair_prints :
    (∀ (rmatch : RegexMatcher) (a e : GoValue) (ak ek : String),
      applyComparator rmatch a e ak ek true = none →
      executeNeOperator rmatch a e ak ek = ⟨false, [], [unsupportedMsg a e]⟩)
    ∧ (∀ (rmatch : RegexMatcher) (actual : GoObj) (k : String) (v av : GoValue)
        (pak pek : String),
      goLookup actual (trimQuestion k) = some av →
      goStarts k "$" = false →
      applyComparator rmatch av v (pak ++ "." ++ trimQuestion k)
        (pek ++ "." ++ k) false = none →
      processExpectedEntry rmatch actual k v pak pek = ⟨[], [unsupportedMsg av v]⟩) := by
  constructor
  · intro rmatch a e ak ek h
    rw [executeNeOperator.eq_def, h]
  · intro rmatch actual k v av pak pek hl hs hc
    unfold processExpectedEntry
    rw [hl]
    simp only [hs, Bool.false_eq_true, if_false, hc]

/-- Concrete instance of the amended claim C5 at the unregistered pair
(bool, string). -/
theorem makalu_c5_unsupported_pair_prints_witness :
    applyComparator noRegex (.boolVal true) (.str "yes") "$root.flag"
        "$root.out.flag" true = none
    ∧ executeNeOperator noRegex (.boolVal true) (.str "yes") "$root.flag"
        "$root.out.flag"
      = ⟨false, [], [unsupportedMsg (.boolVal true) (.str "yes")]⟩ := by
  have h : applyComparator noRegex (.boolVal true) (.str "yes") "$root.flag"
      "$root.out.flag" true = none := by
    rw [applyComparator.eq_def]
  exact ⟨h, makalu_c5_unsupported_pair_prints.1 noRegex (.boolVal true) (.str "yes")
    "$root.flag" "$root.out.flag" h⟩

/-- Claim C6.  On String actual values with a non-sigil string operand,
`$ne` fails with exactly one `response_error` when the values are equal,
succeeds with no diagnostic when they differ, and on any kind pair missing
from the comparator table it returns `false` (fails closed). -/
theorem makalu_c6_ne_operator :
    (∀ (rmatch : RegexMatcher) (s ak ek : String), goStarts s "$" = false →
      executeNeOperator rmatch (.str s) (.str s) ak ek
        = ⟨false, [⟨"Values are equal", ak, ek, "response_error"⟩], []⟩)
    ∧ (∀ (rmatch : RegexMatcher) (s t ak ek : String), goStarts t "$" = false →
      s ≠ t →
      executeNeOperator rmatch (.str s) (.str t) ak ek = ⟨true, [], []⟩)
    ∧ (∀ (rmatch : RegexMatcher) (a e : GoValue) (ak ek : String),
      applyComparator rmatch a e ak ek true = none →
      (executeNeOperator rmatch a e ak ek).ok = false) := by
  refine ⟨?_, ?_, ?_⟩
  · intro rmatch s ak ek hs
    rw [executeNeOperator.eq_def, applyComparator.eq_def]
    simp [stringStringComparator, hs]
  · intro rmatch s t ak ek ht hne
    rw [executeNeOperator.eq_def, applyComparator.eq_def]
    simp [stringStringComparator, ht, hne]
  · intro rmatch a e ak ek h
    rw [executeNeOperator.eq_def, h]

/-- Concrete instance of claim C6: `$ne "X"` against `"X"`, `"Y"` against
`"X"`, and the unregistered pair (bool, string). -/
theorem makalu_c6_ne_operator_witness :
    executeNeOperator noRegex (.str "X") (.str "X") "$root.a" "$root.out.a"
      = ⟨false, [⟨"Values are equal", "$root.a", "$root.out.a", "response_error"⟩], []⟩
    ∧ executeNeOperator noRegex (.str "Y") (.str "X") "$root.a" "$root.out.a"
      = ⟨true, [], []⟩
    ∧ (executeNeOperator noRegex (.boolVal false) (.str "X") "$root.a"
        "$root.out.a").ok = false := by
  refine ⟨?_, ?_, ?_⟩
  · exact makalu_c6_ne_operator.1 noRegex "X" "$root.a" "$root.out.a" (by decide)
  · exact makalu_c6_ne_operator.2.1 noRegex "Y" "X" "$root.a" "$root.out.a"
      (by decide) (by decide)
  · exact makalu_c6_ne_operator.2.2 noRegex (.boolVal false) (.str "X") "$root.a"
      "$root.out.a" (by rw [applyComparator.eq_def])

/-- Claim C7.  `$regex` on a non-String actual value appends exactly one
`response_error` and its result does not depend on the matcher (the
pattern is never compiled or executed); a pattern the matcher rejects
appends one `spec_error`; a matching string succeeds with no diagnostic;
a non-matching string appends one `response_error`. -/
theorem makalu_c7_regex_operator :
    (∀ (rmatch : RegexMatcher) (v : GoValue) (pat ak ek : String),
      typeName v ≠ "string" →
      executeRegexOperator rmatch v pat ak ek
        = ⟨false, [⟨"Unexpected value type", ak, ek, "response_error"⟩], []⟩)
    ∧ (∀ (rmatch : RegexMatcher) (s pat ak ek : String),
      rmatch pat s = .error () →
      executeRegexOperator rmatch (.str s) pat ak ek
        = ⟨false, [⟨"Invalid regex pattern", ak, ek, "spec_error"⟩], []⟩)
    ∧ (∀ (rmatch : RegexMatcher) (s pat ak ek : String),
      rmatch pat s = .ok true →
      executeRegexOperator rmatch (.str s) pat ak ek = ⟨true, [], []⟩)
    ∧ (∀ (rmatch : RegexMatcher) (s pat ak ek : String),
      rmatch pat s = .ok false →
      executeRegexOperator rmatch (.str s) pat ak ek
        = ⟨false, [⟨"Regex mismatch", ak, ek, "response_error"⟩], []⟩) := by
  refine ⟨?_, ?_, ?_, ?_⟩
  · intro rmatch v pat ak ek hv
    cases v <;> first
      | rfl
      | exact absurd rfl hv
  · intro rmatch s pat ak ek h
    simp [executeRegexOperator, h]
  · intro rmatch s pat ak ek h
    simp [executeRegexOperator, h]
  · intro rmatch s pat ak ek h
    simp [executeRegexOperator, h]

/-- Concrete instance of claim C7: non-string actual, invalid pattern,
match, and mismatch. -/
theorem makalu_c7_regex_operator_witness :
    typeName (.intVal 42) ≠ "string"
    ∧ executeRegexOperator testMatcher (.intVal 42) "^a.*z$" "$root.a" "$root.out.a"
      = ⟨false, [⟨"Unexpected value type", "$root.a", "$root.out.a",
          "response_error"⟩], []⟩
    ∧ testMatcher "(" "abz" = .error ()
    ∧ executeRegexOperator testMatcher (.str "abz") "(" "$root.a" "$root.out.a"
      = ⟨false, [⟨"Invalid regex pattern", "$root.a", "$root.out.a",
          "spec_error"⟩], []⟩
    ∧ testMatcher "abz" "abz" = .ok true
    ∧ executeRegexOperator testMatcher (.str "abz") "abz" "$root.a" "$root.out.a"
      = ⟨true, [], []⟩
    ∧ testMatcher "q" "abz" = .ok false
    ∧ executeRegexOperator testMatcher (.str "abz") "q" "$root.a" "$root.out.a"
      = ⟨false, [⟨"Regex mismatch", "$root.a", "$root.out.a", "response_error"⟩], []⟩ := by
  refine ⟨by decide, ?_, rfl, ?_, rfl, ?_, rfl, ?_⟩
  · exact makalu_c7_regex_operator.1 testMatcher (.intVal 42) "^a.*z$" "$root.a"
      "$root.out.a" (by decide)
  · exact makalu_c7_regex_operator.2.1 testMatcher "abz" "(" "$root.a" "$root.out.a" rfl
  · exact makalu_c7_regex_operator.2.2.1 testMatcher "abz" "abz" "$root.a" "$root.out.a"
      rfl
  · exact makalu_c7_regex_operator.2.2.2 testMatcher "abz" "q" "$root.a" "$root.out.a"
      rfl

/-- Claim C8.  The claim states every appended diagnostic carries non-empty
actual and expected paths rooted at `$root`.  But the
`json.Number`-vs-mapping comparator calls `operate` with empty strings for
both path prefixes (src/main.go line 242), so comparing
`{a: 5}` against the pattern `{a: {$ne: "x"}}` from the `$root` prefixes
appends a diagnostic whose actual path and expected path are both the
empty string. -/
theorem makalu_c8_empty_diagnostic_paths :
    compareObjects noRegex [("a", .jsonNumber "5")]
        [("a", .obj [("$ne", .str "x")])] "$root" "$root.out"
      = ⟨[⟨"Values are not equal", "", "", "response_error"⟩], []⟩ := by
  simp +decide [compareObjects, unknownKeyPass, unknownKeyEntry, goLookup,
    expectedKeyPass, processExpectedEntry, trimQuestion, applyComparator,
    numberMapIter, operate, executeNeOperator, numberStringComparator]

/-- On the input `"a\x7b\x7bb"` (an unterminated `\x7b\x7b` with no closing
delimiter anywhere) the `refer` loop never advances `index`, so it never
terminates: the fuelled model returns `none` for every fuel. -/
theorem referLoop_stuck (lookup : String → Option GoValue) :
    ∀ (fuel : Nat) (buffer : String),
      referLoop lookup "a\x7b\x7bb".toList fuel 0 buffer = none
  | 0, _ => rfl
  | fuel + 1, buffer => by
    have h : referLoop lookup "a\x7b\x7bb".toList (fuel + 1) 0 buffer
        = referLoop lookup "a\x7b\x7bb".toList fuel 0 (buffer ++ "a") := rfl
    rw [h]
    exact referLoop_stuck lookup fuel (buffer ++ "a")

/-- Claim C9.  The claim states that a failing path query is recorded as a
`spec_error` aborting only the current entry, and that an unterminated
opening delimiter is a `spec_error`, never silent.  In the source: a path
query that fails makes `refer` call `log.Fatal`, terminating the whole
process (no diagnostic is ever recorded — `refer` never touches the
`errors` slice at all); a path query resolving to a non-string panics on
the `value.(string)` assertion; and an unterminated opening delimiter
makes the scan loop spin forever without reporting anything. -/
theorem makalu_c9_refer_failure_modes :
    (∀ (lookup : String → Option GoValue) (fuel : Nat),
      refer lookup "a\x7b\x7bb" fuel = none)
    ∧ refer (fun _ => none) "\x7b\x7bx\x7d\x7d" 5 = some .fatalError
    ∧ refer (fun _ => some (.intVal 7)) "\x7b\x7bx\x7d\x7d" 5
      = some .typeAssertPanic := by
  refine ⟨?_, by decide, by decide⟩
  intro lookup fuel
  exact referLoop_stuck lookup fuel ""

/-- Claim C10.  The (Number, String) comparator produces the identical
result and diagnostics whether `inverse` is `true` or `false` (the source
never reads the flag), so `$ne` with operand `"$number"` against any
Number actual value returns success and appends nothing instead of
applying a negated kind check. -/
theorem makalu_c10_number_string_ignores_inverse :
    (∀ a e ak ek : String,
      numberStringComparator a e ak ek true = numberStringComparator a e ak ek false)
    ∧ (∀ (rmatch : RegexMatcher) (r ak ek : String),
      executeNeOperator rmatch (.jsonNumber r) (.str "$number") ak ek
        = ⟨true, [], []⟩) := by
  constructor
  · intro a e ak ek
    rfl
  · intro rmatch r ak ek
    rw [executeNeOperator.eq_def, applyComparator.eq_def]
    simp +decide [numberStringComparator]

end Makalu
